import Mathlib

/-!
Verification of the layer-stack manager in `src/src/helper/layer.js`.

The JavaScript module manages a paper.js project's ordered stack of layers:
five role-tagged layers (background guide, raster, painting, drag crosshair,
guide), their creation (`setupLayers`), the hide/show round trip used for
export (`hideGuideLayers` / `showGuideLayers`), the raster content manager
(`clearRaster` / `getRaster`), the checkerboard background builder
(`_makeBackgroundPaper`), the crosshair builder (`_makeCrosshair`) and the
blank-canvas builder (`createCanvas`).

The embedding models a paper.js project as a pool of layer objects (layers
keep their identity when detached from the stack) plus a stack of layer ids
ordered back to front, an active-layer id and a log of error messages.  The
relevant paper.js primitives are modelled after their sources (v0.11 line):
  - `new paper.Layer()` appends the layer to the top of the stack and
    activates it;
  - `Layer#remove` detaches the layer from the stack without destroying it;
    if it was active, the next (else previous) sibling becomes active;
  - `Project#addLayer` first detaches the layer (same active-layer rule),
    then appends it on top; it activates it only if no layer is active;
  - `sendToBack` / `bringToFront` reinsert an attached layer at the bottom /
    top of the stack and do nothing for a detached layer;
  - `layer.index` is the position in the stack, `null` when detached.
JavaScript values that can be `undefined`/`null` are modelled with `Option`;
code paths that would throw a `TypeError` return `none`.
-/

namespace ScratchPaint

/-- The five boolean role flags looked up in a layer's `data` object. -/
inductive RoleTag
  | isPaintingLayer
  | isRasterLayer
  | isDragCrosshairLayer
  | isGuideLayer
  | isBackgroundGuideLayer
deriving DecidableEq, Repr

/-- A layer's `data` object: the five role flags, all initially absent. -/
structure LayerData where
  isPaintingLayer : Bool := false
  isRasterLayer : Bool := false
  isDragCrosshairLayer : Bool := false
  isGuideLayer : Bool := false
  isBackgroundGuideLayer : Bool := false
deriving DecidableEq, Repr

/-- `data[layerString]` lookup. -/
def LayerData.get (d : LayerData) : RoleTag → Bool
  | .isPaintingLayer => d.isPaintingLayer
  | .isRasterLayer => d.isRasterLayer
  | .isDragCrosshairLayer => d.isDragCrosshairLayer
  | .isGuideLayer => d.isGuideLayer
  | .isBackgroundGuideLayer => d.isBackgroundGuideLayer

/-! ### createCanvas -/

/-- The geometry context: `artBoardWidth()` / `artBoardHeight()` from
`helper/view`, and the current `paper.view` zoom and center consumed by the
crosshair builder. -/
structure PaintEnv where
  artBoardW : Nat
  artBoardH : Nat
  zoom : Rat
  center : Rat × Rat
deriving DecidableEq, Repr

/-- The observable result of `createCanvas`: an HTML canvas' dimensions and
its 2d context's `imageSmoothingEnabled` flag. -/
structure Canvas where
  width : Nat
  height : Nat
  imageSmoothingEnabled : Bool
deriving DecidableEq, Repr

/-- The ternary `value ? value : deflt` of `createCanvas`: a missing
(`none`, i.e. `null`/`undefined`) or zero argument is falsy and replaced by
the default. -/
def canvasDim (deflt : Nat) : Option Nat → Nat
  | some v => if v = 0 then deflt else v
  | none => deflt

/-- `createCanvas(width, height)`: dimensions default to the art board via
the falsy test, and image smoothing is disabled on the context. -/
def createCanvas (env : PaintEnv) (width height : Option Nat) : Canvas :=
  { width := canvasDim env.artBoardW width
    height := canvasDim env.artBoardH height
    imageSmoothingEnabled := false }

/-! ### Crosshair builder geometry -/

def CROSSHAIR_SIZE : Rat := 16

def CROSSHAIR_FULL_OPACITY : Rat := 0.75

/-- A primitive child of the crosshair group: a stroked line segment or a
stroked circle shape. -/
inductive CrosshairPrim
  | line (p1 p2 : Rat × Rat) (strokeWidth : Rat) (strokeColor : String)
  | circle (center : Rat × Rat) (radius : Rat) (strokeWidth : Rat) (strokeColor : String)
deriving DecidableEq, Repr

/-- The six children `_makeCrosshair` adds to the crosshair group, in
creation order: white 6px vertical line, horizontal line and circle, then
black 2px vertical line, horizontal line and circle. -/
def crosshairChildren : List CrosshairPrim :=
  [ .line (0, -7) (0, 7) 6 "white"
  , .line (-7, 0) (7, 0) 6 "white"
  , .circle (0, 0) 5.5 6 "white"
  , .line (0, -7) (0, 7) 2 "black"
  , .line (-7, 0) (7, 0) 2 "black"
  , .circle (0, 0) 5.5 2 "black" ]

/-- Left edge of a primitive's geometric bounds (paper.js `bounds` excludes
the stroke). -/
def CrosshairPrim.xMin : CrosshairPrim → Rat
  | .line p1 p2 _ _ => min p1.1 p2.1
  | .circle c r _ _ => c.1 - r

/-- Right edge of a primitive's geometric bounds. -/
def CrosshairPrim.xMax : CrosshairPrim → Rat
  | .line p1 p2 _ _ => max p1.1 p2.1
  | .circle c r _ _ => c.1 + r

/-- `crosshair.bounds.width`: width of the union of the children's bounds. -/
def crosshairBoundsWidth : Rat :=
  (match crosshairChildren.map CrosshairPrim.xMax with
    | [] => 0
    | x :: xs => xs.foldl max x) -
  (match crosshairChildren.map CrosshairPrim.xMin with
    | [] => 0
    | x :: xs => xs.foldl min x)

/-- The factor in `crosshair.scale(CROSSHAIR_SIZE / crosshair.bounds.width /
paper.view.zoom)`. -/
def crosshairScaleFactor (zoom : Rat) : Rat :=
  CROSSHAIR_SIZE / crosshairBoundsWidth / zoom

/-- Bounding width of the crosshair group after the `scale` call (scaling a
group by a positive factor multiplies its bounding width by that factor). -/
def crosshairScaledBoundsWidth (zoom : Rat) : Rat :=
  crosshairBoundsWidth * crosshairScaleFactor zoom

/-! ### Checkerboard builder (`_makeBackgroundPaper`) -/

/-- First point-generation loop (`while (x < width)`), recursing on the
remaining iteration count `width - x`: each iteration pushes `(x, y)` and
`(x + 1, y)` and toggles `y` between `0` and `height`.  Since `x` increases
by one per iteration, the loop guard `x < width` holds exactly when the
remaining count is positive. -/
def bgTopPassFrom (height : Nat) : Nat → Nat → Nat → List (Nat × Nat)
  | 0, _, _ => []
  | remaining + 1, x, y =>
    (x, y) :: (x + 1, y) ::
      bgTopPassFrom height remaining (x + 1) (if y = 0 then height else 0)

/-- The first loop started at `x`, `y`. -/
def bgTopPassPoints (width height : Nat) (x y : Nat) : List (Nat × Nat) :=
  bgTopPassFrom height (width - x) x y

/-- Second point-generation loop (`while (y > 0)`, structural recursion on
`y`): pushes `(x, y)`, toggles `x` between `0` and `width`, pushes the
toggled `(x, y)` and decrements `y`. -/
def bgReturnPassPoints (width : Nat) (x y : Nat) : List (Nat × Nat) :=
  match y with
  | 0 => []
  | yy + 1 =>
    (x, yy + 1) :: ((if x = 0 then width else 0), yy + 1) ::
      bgReturnPassPoints width (if x = 0 then width else 0) yy

/-- All points of the checkerboard path `vPath`: the top pass starting at
`x = 0, y = 0` followed by the return pass starting at `x = width,
y = height - 1`. -/
def makeBackgroundPaperPoints (width height : Nat) : List (Nat × Nat) :=
  bgTopPassPoints width height 0 0 ++ bgReturnPassPoints width width (height - 1)

/-- The observable content of the group `_makeBackgroundPaper` returns: the
white background rectangle `vRect` and the even-odd checkerboard path
`vPath`. -/
structure BackgroundPaper where
  rectFrom : Nat × Nat
  rectTo : Nat × Nat
  rectFillColor : String
  rectGuide : Bool
  rectLocked : Bool
  pathPoints : List (Nat × Nat)
  pathFillRule : String
  pathFillColor : String
  pathGuide : Bool
  pathLocked : Bool
deriving DecidableEq, Repr

/-- `_makeBackgroundPaper(width, height, color)`: a white rectangle from
`(0,0)` to `(width,height)` under an even-odd filled path through the
generated points, both locked guides, grouped. -/
def _makeBackgroundPaper (width height : Nat) (color : String) : BackgroundPaper :=
  { rectFrom := (0, 0)
    rectTo := (width, height)
    rectFillColor := "#fff"
    rectGuide := true
    rectLocked := true
    pathPoints := makeBackgroundPaperPoints width height
    pathFillRule := "evenodd"
    pathFillColor := color
    pathGuide := true
    pathLocked := true }

/-! ### Even-odd fill (ray-crossing model of the `evenodd` fill rule) -/

/-- Edges of the implicitly closed polygon through `pts`. -/
def closedEdges (pts : List (Int × Int)) : List ((Int × Int) × (Int × Int)) :=
  match pts with
  | [] => []
  | p :: rest => pts.zip (rest ++ [p])

/-- Whether the horizontal ray from `c` toward `+x` crosses the edge `e`
(standard half-open crossing test; exact integer arithmetic). -/
def rayCrossesEdge (c : Int × Int) (e : (Int × Int) × (Int × Int)) : Bool :=
  let p := e.1
  let q := e.2
  if (decide (c.2 < p.2)) != (decide (c.2 < q.2)) then
    let d := (q.1 - p.1) * (c.2 - p.2) - (c.1 - p.1) * (q.2 - p.2)
    if p.2 < q.2 then decide (0 < d) else decide (d < 0)
  else false

/-- Even-odd membership of point `c` in the polygon through `pts`: the
crossing count of a ray from `c` is odd. -/
def evenOddContains (pts : List (Int × Int)) (c : Int × Int) : Bool :=
  ((closedEdges pts).countP (rayCrossesEdge c)) % 2 = 1

/-- The checkerboard path for `width = 8, height = 8`, scaled by 8 on each
axis (the caller sets `vBackground.scaling = new paper.Point(8, 8)`). -/
def scaledCheckerboardPoints : List (Int × Int) :=
  (makeBackgroundPaperPoints 8 8).map (fun p => (8 * (p.1 : Int), 8 * (p.2 : Int)))

/-! ### The project state model -/

/-- Top-level items living inside a layer.  The raster layer holds one
`rasterImage` (the blank `paper.Raster` made by `clearRaster`), the
background guide layer holds the checkerboard group and a crosshair group,
the drag-crosshair layer holds a crosshair group. -/
inductive Item
  | rasterImage (canvasWidth canvasHeight : Nat) (smoothing : Bool)
      (guide locked : Bool) (position : Rat × Rat)
  | backgroundGroup (content : BackgroundPaper) (position : Rat × Rat)
      (scaling : Rat × Rat) (guide locked : Bool)
  | crosshairGroup (opacity : Rat) (scaleFactor : Rat) (position : Rat × Rat)
      (guide locked : Bool)
deriving DecidableEq, Repr

/-- A paper.js layer object.  Identity is the `id`; a layer keeps existing
when detached from the stack.  `dragCrosshair` models the back-reference
expando `parent.dragCrosshair` set by `_makeCrosshair`. -/
structure Layer where
  id : Nat
  data : LayerData := {}
  children : List Item := []
  visible : Bool := true
  locked : Bool := false
  dragCrosshair : Bool := false
deriving DecidableEq, Repr

/-- Messages sent to the diagnostics sink by `showGuideLayers`. -/
inductive LogMsg
  | wrongActiveLayer
  | activeLayerData (d : LayerData)
deriving DecidableEq, Repr

/-- The paper.js project state: every layer object ever created (`pool`),
the stack of attached layer ids ordered back to front, the active layer and
the log.  `nextId` supplies fresh ids. -/
structure PaperState where
  pool : List Layer
  stack : List Nat
  activeId : Option Nat
  nextId : Nat
  logs : List LogMsg
deriving DecidableEq, Repr

/-- A project with no layers. -/
def emptyProject : PaperState :=
  { pool := [], stack := [], activeId := none, nextId := 0, logs := [] }

/-- Look a layer object up by id. -/
def findPool (pool : List Layer) (id : Nat) : Option Layer :=
  pool.find? (fun l => l.id == id)

/-- `layer.data && layer.data[layerString]` for the layer with this id. -/
def layerHasTag (s : PaperState) (tag : RoleTag) (id : Nat) : Bool :=
  match findPool s.pool id with
  | some l => l.data.get tag
  | none => false

/-- `layer.index`: position of the layer in `project.layers`, `none` when
the layer is detached. -/
def layerIndex (s : PaperState) (id : Nat) : Option Nat :=
  s.stack.findIdx? (· == id)

/-- The children of the layer with this id. -/
def childrenOf (s : PaperState) (id : Nat) : List Item :=
  match findPool s.pool id with
  | some l => l.children
  | none => []

/-- Rewrite every pool entry with this id through `g`. -/
def updatePool (id : Nat) (g : Layer → Layer) (s : PaperState) : PaperState :=
  { s with pool := s.pool.map (fun l => if l.id = id then g l else l) }

/-- Update a layer's `data` object. -/
def setData (id : Nat) (f : LayerData → LayerData) (s : PaperState) : PaperState :=
  updatePool id (fun l => { l with data := f l.data }) s

/-- Replace a layer's children. -/
def setChildrenOf (id : Nat) (items : List Item) (s : PaperState) : PaperState :=
  updatePool id (fun l => { l with children := items }) s

/-- `layer.activate()`. -/
def activate (id : Nat) (s : PaperState) : PaperState :=
  { s with activeId := some id }

/-- `new paper.Layer()`: a fresh layer object appended to the top of the
stack and activated. -/
def mkLayer (s : PaperState) : PaperState × Nat :=
  let id := s.nextId
  ({ s with
      pool := s.pool ++ [{ id := id }]
      stack := s.stack ++ [id]
      activeId := some id
      nextId := id + 1 }, id)

/-- The layer that becomes active when the active layer is detached:
`getNextSibling() || getPreviousSibling()`. -/
def siblingAfterRemove (s : PaperState) (id : Nat) : Option Nat :=
  match layerIndex s id with
  | some i => s.stack[i + 1]? <|> (if i = 0 then none else s.stack[i - 1]?)
  | none => none

/-- `Layer#_remove`: detach the layer from the stack (the object survives in
the pool); if it was active, a sibling becomes active. -/
def removeLayer (id : Nat) (s : PaperState) : PaperState :=
  if s.stack.contains id then
    { s with
        stack := s.stack.erase id
        activeId := if s.activeId = some id then siblingAfterRemove s id else s.activeId }
  else s

/-- `Project#insertLayer`: first detach the layer (with the active-sibling
rule), then insert it at the bottom (`atBack = true`) or the top of the
stack; activate it only when no layer is active. -/
def projectInsertLayer (atBack : Bool) (id : Nat) (s : PaperState) : PaperState :=
  let s1 := removeLayer id s
  { s1 with
      stack := if atBack then id :: s1.stack else s1.stack ++ [id]
      activeId := if s1.activeId = none then some id else s1.activeId }

/-- `paper.project.addLayer(layer)`: insert on top of the stack. -/
def addLayer (id : Nat) (s : PaperState) : PaperState :=
  projectInsertLayer false id s

/-- `layer.sendToBack()`: move an attached layer to the bottom of the stack;
a detached layer has no owner and nothing happens. -/
def sendToBack (id : Nat) (s : PaperState) : PaperState :=
  if s.stack.contains id then projectInsertLayer true id s else s

/-- `layer.bringToFront()`: move an attached layer to the top of the stack;
a detached layer has no owner and nothing happens. -/
def bringToFront (id : Nat) (s : PaperState) : PaperState :=
  if s.stack.contains id then projectInsertLayer false id s else s

/-! ### The functions of `layer.js` -/

/-- `_getLayer(layerString)`: scan `paper.project.layers` back to front for
the first layer whose `data` carries the flag. -/
def _getLayer (s : PaperState) (tag : RoleTag) : Option Nat :=
  s.stack.find? (layerHasTag s tag)

/-- `_getPaintingLayer()`. -/
def _getPaintingLayer (s : PaperState) : Option Nat :=
  _getLayer s .isPaintingLayer

/-- The blank raster `clearRaster` builds: a `paper.Raster` over
`createCanvas()` (art-board sized) with smoothing disabled, marked guide and
locked, centered on the art board. -/
def blankRaster (env : PaintEnv) : Item :=
  .rasterImage (createCanvas env none none).width (createCanvas env none none).height
    false true true ((env.artBoardW : Rat) / 2, (env.artBoardH : Rat) / 2)

/-- `clearRaster()`: remove all children of the raster layer and give it one
fresh blank raster.  `none` models the `TypeError` thrown when no raster
layer exists. -/
def clearRaster (env : PaintEnv) (s : PaperState) : Option PaperState :=
  match _getLayer s .isRasterLayer with
  | some id => some (setChildrenOf id [blankRaster env] s)
  | none => none

/-- `getRaster()`: reset the raster layer first when it has no children,
then return `_getLayer('isRasterLayer').children[0]` (`some (s, none)` when
that index read yields `undefined`; outer `none` models a `TypeError`). -/
def getRaster (env : PaintEnv) (s : PaperState) : Option (PaperState × Option Item) :=
  match _getLayer s .isRasterLayer with
  | none => none
  | some id =>
    match (if (childrenOf s id).length = 0 then clearRaster env s else some s) with
    | none => none
    | some s1 =>
      match _getLayer s1 .isRasterLayer with
      | none => none
      | some id2 => some (s1, (childrenOf s1 id2).head?)

/-- `getDragCrosshairLayer()`. -/
def getDragCrosshairLayer (s : PaperState) : Option Nat :=
  _getLayer s .isDragCrosshairLayer

/-- `getBackgroundGuideLayer()`. -/
def getBackgroundGuideLayer (s : PaperState) : Option Nat :=
  _getLayer s .isBackgroundGuideLayer

/-- `_makeGuideLayer()`: a new layer tagged `isGuideLayer`. -/
def _makeGuideLayer (s : PaperState) : PaperState × Nat :=
  let (s1, id) := mkLayer s
  (setData id (fun d => { d with isGuideLayer := true }) s1, id)

/-- `getGuideLayer()`: return the guide layer, creating it (and then
re-activating the painting layer) when absent.  `none` models the
`TypeError` of `_getPaintingLayer().activate()` with no painting layer. -/
def getGuideLayer (s : PaperState) : Option (PaperState × Nat) :=
  match _getLayer s .isGuideLayer with
  | some id => some (s, id)
  | none =>
    match _getPaintingLayer (_makeGuideLayer s).1 with
    | some pid => some (activate pid (_makeGuideLayer s).1, (_makeGuideLayer s).2)
    | none => none

/-- The snapshot object `hideGuideLayers` returns; `rasterLayer` is
`undefined` unless `includeRaster` was set. -/
structure Snapshot where
  dragCrosshairLayer : Nat
  guideLayer : Nat
  backgroundGuideLayer : Nat
  rasterLayer : Option Nat
deriving DecidableEq, Repr

/-- `hideGuideLayers(includeRaster)`: look up the background-guide,
drag-crosshair and guide layers, detach drag-crosshair, guide and
background-guide (and, when `includeRaster`, the raster layer) and return
the snapshot.  `none` models the `TypeError` when a looked-up layer is
missing. -/
def hideGuideLayers (includeRaster : Bool) (s : PaperState) :
    Option (PaperState × Snapshot) :=
  match getBackgroundGuideLayer s, getDragCrosshairLayer s with
  | some bgId, some dcId =>
    match getGuideLayer s with
    | some (s1, gId) =>
      let s2 := removeLayer dcId s1
      let s3 := removeLayer gId s2
      let s4 := removeLayer bgId s3
      if includeRaster then
        match _getLayer s4 .isRasterLayer with
        | some rId =>
          some (removeLayer rId s4,
            { dragCrosshairLayer := dcId, guideLayer := gId,
              backgroundGuideLayer := bgId, rasterLayer := some rId })
        | none => none
      else
        some (s4,
          { dragCrosshairLayer := dcId, guideLayer := gId,
            backgroundGuideLayer := bgId, rasterLayer := none })
    | none => none
  | _, _ => none

/-- The `!layer.index` test of `showGuideLayers`, negated: `layer.index` is
truthy exactly when the layer is attached at a nonzero stack position. -/
def truthyIndex (s : PaperState) (id : Nat) : Bool :=
  match layerIndex s id with
  | some k => decide (k ≠ 0)
  | none => false

/-- The reinsertion phase of `showGuideLayers(guideLayers)`: each snapshot
layer whose `index` is falsy is re-added and sent to the back (raster,
background guide) or brought to the front (drag crosshair, guide), in that
order. -/
def showGuideLayersReinsert (guideLayers : Snapshot) (s : PaperState) : PaperState :=
  let s1 := match guideLayers.rasterLayer with
    | some rId => if truthyIndex s rId then s else sendToBack rId (addLayer rId s)
    | none => s
  let s2 :=
    if truthyIndex s1 guideLayers.backgroundGuideLayer then s1
    else sendToBack guideLayers.backgroundGuideLayer
          (addLayer guideLayers.backgroundGuideLayer s1)
  let s3 :=
    if truthyIndex s2 guideLayers.dragCrosshairLayer then s2
    else bringToFront guideLayers.dragCrosshairLayer
          (addLayer guideLayers.dragCrosshairLayer s2)
  if truthyIndex s3 guideLayers.guideLayer then s3
  else bringToFront guideLayers.guideLayer (addLayer guideLayers.guideLayer s3)

/-- The check `paper.project.activeLayer !== _getPaintingLayer()` after
reinsertion (object identity; an absent painting layer compares unequal to
any layer). -/
def activeIsPainting (s : PaperState) : Bool :=
  match s.activeId, _getPaintingLayer s with
  | some a, some p => a == p
  | _, _ => false

/-- The `data` object of the active layer, logged by the failing check. -/
def activeLayerDataOf (s : PaperState) (a : Nat) : LayerData :=
  match findPool s.pool a with
  | some l => l.data
  | none => {}

/-- `showGuideLayers(guideLayers)`: reinsert the snapshot layers, then log
two errors when the active layer is not the painting layer (the active
layer is not corrected).  `none` models the project-with-no-active-layer
edge, which the claims never reach. -/
def showGuideLayers (guideLayers : Snapshot) (s : PaperState) : Option PaperState :=
  if activeIsPainting (showGuideLayersReinsert guideLayers s) then
    some (showGuideLayersReinsert guideLayers s)
  else
    match (showGuideLayersReinsert guideLayers s).activeId with
    | some a =>
      some { showGuideLayersReinsert guideLayers s with
        logs := (showGuideLayersReinsert guideLayers s).logs ++
          [LogMsg.wrongActiveLayer,
           LogMsg.activeLayerData
             (activeLayerDataOf (showGuideLayersReinsert guideLayers s) a)] }
    | none => none

/-- `_makePaintingLayer()`. -/
def _makePaintingLayer (s : PaperState) : PaperState × Nat :=
  let (s1, id) := mkLayer s
  (setData id (fun d => { d with isPaintingLayer := true }) s1, id)

/-- `_makeRasterLayer()`: a new layer tagged `isRasterLayer`, then
`clearRaster()`. -/
def _makeRasterLayer (env : PaintEnv) (s : PaperState) : Option (PaperState × Nat) :=
  let (s1, id) := mkLayer s
  let s2 := setData id (fun d => { d with isRasterLayer := true }) s1
  (clearRaster env s2).map (fun s3 => (s3, id))

/-- `_makeCrosshair(opacity, parent)`: add the crosshair group (six locked
guide primitives, scaled by `crosshairScaleFactor`, centered on the view) to
the parent layer and set the `dragCrosshair` back-reference. -/
def _makeCrosshair (env : PaintEnv) (opacity : Rat) (parentId : Nat)
    (s : PaperState) : PaperState :=
  updatePool parentId
    (fun l => { l with
        children := l.children ++
          [Item.crosshairGroup opacity (crosshairScaleFactor env.zoom) env.center true true]
        dragCrosshair := true }) s

/-- `_makeDragCrosshairLayer()`: a new invisible layer holding a crosshair
at full opacity, tagged `isDragCrosshairLayer`. -/
def _makeDragCrosshairLayer (env : PaintEnv) (s : PaperState) : PaperState × Nat :=
  let (s1, id) := mkLayer s
  let s2 := _makeCrosshair env CROSSHAIR_FULL_OPACITY id s1
  let s3 := setData id (fun d => { d with isDragCrosshairLayer := true }) s2
  (updatePool id (fun l => { l with visible := false }) s3, id)

/-- `_makeBackgroundGuideLayer()`: a new locked layer holding the
checkerboard (cell grid of art board over 8, scaled by 8, centered) and a
crosshair at opacity 0.16, tagged `isBackgroundGuideLayer`. -/
def _makeBackgroundGuideLayer (env : PaintEnv) (s : PaperState) : PaperState × Nat :=
  let (s1, id) := mkLayer s
  let s2 := updatePool id (fun l => { l with locked := true }) s1
  let vBackground : Item :=
    .backgroundGroup (_makeBackgroundPaper (env.artBoardW / 8) (env.artBoardH / 8) "#E5E5E5")
      ((env.artBoardW : Rat) / 2, (env.artBoardH : Rat) / 2) (8, 8) true true
  let s3 := updatePool id (fun l => { l with children := l.children ++ [vBackground] }) s2
  let s4 := _makeCrosshair env 0.16 id s3
  (setData id (fun d => { d with isBackgroundGuideLayer := true }) s4, id)

/-- `setupLayers()`: build background-guide, raster, painting,
drag-crosshair and guide layers in that order, send background-guide to the
back, bring drag-crosshair then guide to the front, activate the painting
layer. -/
def setupLayers (env : PaintEnv) (s : PaperState) : Option PaperState :=
  let (s1, bgId) := _makeBackgroundGuideLayer env s
  match _makeRasterLayer env s1 with
  | none => none
  | some (s2, _) =>
    let (s3, paintId) := _makePaintingLayer s2
    let (s4, dcId) := _makeDragCrosshairLayer env s3
    let (s5, gId) := _makeGuideLayer s4
    let s6 := sendToBack bgId s5
    let s7 := bringToFront dcId s6
    let s8 := bringToFront gId s7
    some (activate paintId s8)

/-- The state after `setupLayers()` on an empty project. -/
def canonicalState (env : PaintEnv) : PaperState :=
  (setupLayers env emptyProject).getD emptyProject

/-- The five layer objects `setupLayers` builds, spelled out. -/
def canonicalPool (env : PaintEnv) : List Layer :=
  [ { id := 0, data := { isBackgroundGuideLayer := true },
      children := [Item.backgroundGroup
          (_makeBackgroundPaper (env.artBoardW / 8) (env.artBoardH / 8) "#E5E5E5")
          ((env.artBoardW : Rat) / 2, (env.artBoardH : Rat) / 2) (8, 8) true true,
        Item.crosshairGroup 0.16 (crosshairScaleFactor env.zoom) env.center true true],
      locked := true, dragCrosshair := true }
  , { id := 1, data := { isRasterLayer := true }, children := [blankRaster env] }
  , { id := 2, data := { isPaintingLayer := true } }
  , { id := 3, data := { isDragCrosshairLayer := true },
      children := [Item.crosshairGroup CROSSHAIR_FULL_OPACITY
          (crosshairScaleFactor env.zoom) env.center true true],
      visible := false, dragCrosshair := true }
  , { id := 4, data := { isGuideLayer := true } } ]

/-- The canonical post-setup state, spelled out. -/
def canonicalExplicit (env : PaintEnv) : PaperState :=
  { pool := canonicalPool env, stack := [0, 1, 2, 3, 4], activeId := some 2,
    nextId := 5, logs := [] }

/-- Intermediate states of the hide/show round trip: the canonical pool with
a partial stack and the painting layer active. -/
def midState (env : PaintEnv) (stack : List Nat) : PaperState :=
  { pool := canonicalPool env, stack := stack, activeId := some 2,
    nextId := 5, logs := [] }

/-- How many stacked layers carry the tag. -/
def countTag (s : PaperState) (tag : RoleTag) : Nat :=
  s.stack.countP (layerHasTag s tag)

/-- Basic well-formedness: every pool and stack id is below `nextId`, so
`nextId` is fresh. -/
def stateWF (s : PaperState) : Prop :=
  (∀ l ∈ s.pool, l.id < s.nextId) ∧ (∀ id ∈ s.stack, id < s.nextId)

instance (s : PaperState) : Decidable (stateWF s) := by
  unfold stateWF
  exact inferInstance

/-- The layer object `_makeGuideLayer` produces for a given fresh id. -/
def taggedGuideLayer (id : Nat) : Layer :=
  { id := id, data := { isGuideLayer := true } }

/-! ### Concrete states used by witnesses and counterexamples -/

/-- The standard Scratch geometry: a 480 by 360 art board at zoom 1. -/
def envStd : PaintEnv :=
  { artBoardW := 480, artBoardH := 360, zoom := 1, center := (240, 180) }

/-- Shorthand for a stacked layer carrying a given data object. -/
def mkTagged (i : Nat) (d : LayerData) : Layer :=
  { id := i, data := d }

/-- A stack whose guide layer sits attached at index 0 (with the painting
layer active): the `!layer.index` test misreads index 0 as detached. -/
def guideAtBottomState : PaperState :=
  { pool := [mkTagged 0 { isGuideLayer := true },
             mkTagged 1 { isBackgroundGuideLayer := true },
             mkTagged 2 { isRasterLayer := true },
             mkTagged 3 { isPaintingLayer := true },
             mkTagged 4 { isDragCrosshairLayer := true }],
    stack := [0, 1, 2, 3, 4], activeId := some 3, nextId := 5, logs := [] }

/-- A snapshot referencing the attached layers of `guideAtBottomState`. -/
def guideAtBottomSnapshot : Snapshot :=
  { dragCrosshairLayer := 4, guideLayer := 0, backgroundGuideLayer := 1,
    rasterLayer := none }

/-- A stack whose snapshot layers are all attached at nonzero indices
(a padding layer with id 9 occupies index 0 and is active). -/
def attachedState : PaperState :=
  { pool := [mkTagged 9 {},
             mkTagged 2 { isBackgroundGuideLayer := true },
             mkTagged 0 { isPaintingLayer := true },
             mkTagged 3 { isDragCrosshairLayer := true },
             mkTagged 1 { isGuideLayer := true }],
    stack := [9, 2, 0, 3, 1], activeId := some 0, nextId := 10, logs := [] }

/-- A snapshot referencing the attached layers of `attachedState`. -/
def attachedSnapshot : Snapshot :=
  { dragCrosshairLayer := 3, guideLayer := 1, backgroundGuideLayer := 2,
    rasterLayer := none }

/-- Like `attachedState` but with the non-painting padding layer active, so
the consistency check of `showGuideLayers` fails. -/
def wrongActiveState : PaperState :=
  { pool := [mkTagged 9 {},
             mkTagged 2 { isBackgroundGuideLayer := true },
             mkTagged 0 { isPaintingLayer := true },
             mkTagged 3 { isDragCrosshairLayer := true },
             mkTagged 1 { isGuideLayer := true }],
    stack := [9, 2, 0, 3, 1], activeId := some 9, nextId := 10, logs := [] }

/-- A snapshot referencing the attached layers of `wrongActiveState`. -/
def wrongActiveSnapshot : Snapshot :=
  { dragCrosshairLayer := 3, guideLayer := 1, backgroundGuideLayer := 2,
    rasterLayer := none }

/-- A raster layer holding two children: `getRaster` then resets nothing. -/
def twoChildRasterState : PaperState :=
  { pool := [{ id := 0, data := { isRasterLayer := true },
               children := [blankRaster envStd, blankRaster envStd] }],
    stack := [0], activeId := some 0, nextId := 1, logs := [] }

/-- A raster layer with no children, triggering the lazy reset. -/
def emptyRasterState : PaperState :=
  { pool := [{ id := 0, data := { isRasterLayer := true } }],
    stack := [0], activeId := some 0, nextId := 1, logs := [] }

/-- A project holding only a painting layer: `getGuideLayer` must create the
guide layer lazily. -/
def paintingOnlyState : PaperState :=
  { pool := [mkTagged 0 { isPaintingLayer := true }],
    stack := [0], activeId := some 0, nextId := 1, logs := [] }

/-! ### Helper lemmas -/

set_option maxHeartbeats 4000000 in
/-- Evaluating the `setupLayers` chain once, to the explicit state. -/
theorem setupLayers_eq (env : PaintEnv) :
    setupLayers env emptyProject = some (canonicalExplicit env) := rfl

theorem canonicalState_eq (env : PaintEnv) :
    canonicalState env = canonicalExplicit env := by
  unfold canonicalState
  rw [setupLayers_eq]
  rfl

theorem canvasDim_ne_zero (deflt : Nat) (v : Option Nat) (hd : 0 < deflt) :
    canvasDim deflt v ≠ 0 := by
  cases v with
  | none => exact hd.ne'
  | some n =>
    by_cases h0 : n = 0 <;> simp [canvasDim, h0]
    · exact hd.ne'

theorem canvasDim_falsy (deflt : Nat) (v : Option Nat)
    (h : v = none ∨ v = some 0) : canvasDim deflt v = deflt := by
  rcases h with h | h <;> subst h <;> simp [canvasDim]

theorem canvasDim_truthy (deflt n : Nat) (h : n ≠ 0) :
    canvasDim deflt (some n) = n := by
  simp [canvasDim, h]

theorem crosshairBoundsWidth_eq : crosshairBoundsWidth = 14 := by
  simp [crosshairBoundsWidth, crosshairChildren, CrosshairPrim.xMax,
        CrosshairPrim.xMin, max_def, min_def]
  norm_num

/-- Reinserting after `hideGuideLayers(false)` rebuilds the canonical
state, stepping through the stack states one operation at a time. -/
theorem showGuideLayers_midFalse (env : PaintEnv) :
    showGuideLayers
      { dragCrosshairLayer := 3, guideLayer := 4, backgroundGuideLayer := 0,
        rasterLayer := none }
      (midState env [1, 2]) = some (canonicalExplicit env) := by
  have e1 : addLayer 0 (midState env [1, 2]) = midState env [1, 2, 0] := rfl
  have e2 : sendToBack 0 (midState env [1, 2, 0]) = midState env [0, 1, 2] := rfl
  have e3 : addLayer 3 (midState env [0, 1, 2]) = midState env [0, 1, 2, 3] := rfl
  have e4 : bringToFront 3 (midState env [0, 1, 2, 3]) =
      midState env [0, 1, 2, 3] := rfl
  have e5 : addLayer 4 (midState env [0, 1, 2, 3]) =
      midState env [0, 1, 2, 3, 4] := rfl
  have e6 : bringToFront 4 (midState env [0, 1, 2, 3, 4]) =
      midState env [0, 1, 2, 3, 4] := rfl
  have t1 : truthyIndex (midState env [1, 2]) 0 = false := rfl
  have t2 : truthyIndex (midState env [0, 1, 2]) 3 = false := rfl
  have t3 : truthyIndex (midState env [0, 1, 2, 3]) 4 = false := rfl
  have hreins : showGuideLayersReinsert
      { dragCrosshairLayer := 3, guideLayer := 4, backgroundGuideLayer := 0,
        rasterLayer := none }
      (midState env [1, 2]) = midState env [0, 1, 2, 3, 4] := by
    unfold showGuideLayersReinsert
    simp only [t1, e1, e2, t2, e3, e4, t3, e5, e6, Bool.false_eq_true, if_false]
  unfold showGuideLayers
  rw [hreins]
  rfl

/-- Reinserting after `hideGuideLayers(true)` rebuilds the canonical
state, stepping through the stack states one operation at a time. -/
theorem showGuideLayers_midTrue (env : PaintEnv) :
    showGuideLayers
      { dragCrosshairLayer := 3, guideLayer := 4, backgroundGuideLayer := 0,
        rasterLayer := some 1 }
      (midState env [2]) = some (canonicalExplicit env) := by
  have e0 : addLayer 1 (midState env [2]) = midState env [2, 1] := rfl
  have e0' : sendToBack 1 (midState env [2, 1]) = midState env [1, 2] := rfl
  have e1 : addLayer 0 (midState env [1, 2]) = midState env [1, 2, 0] := rfl
  have e2 : sendToBack 0 (midState env [1, 2, 0]) = midState env [0, 1, 2] := rfl
  have e3 : addLayer 3 (midState env [0, 1, 2]) = midState env [0, 1, 2, 3] := rfl
  have e4 : bringToFront 3 (midState env [0, 1, 2, 3]) =
      midState env [0, 1, 2, 3] := rfl
  have e5 : addLayer 4 (midState env [0, 1, 2, 3]) =
      midState env [0, 1, 2, 3, 4] := rfl
  have e6 : bringToFront 4 (midState env [0, 1, 2, 3, 4]) =
      midState env [0, 1, 2, 3, 4] := rfl
  have t0 : truthyIndex (midState env [2]) 1 = false := rfl
  have t1 : truthyIndex (midState env [1, 2]) 0 = false := rfl
  have t2 : truthyIndex (midState env [0, 1, 2]) 3 = false := rfl
  have t3 : truthyIndex (midState env [0, 1, 2, 3]) 4 = false := rfl
  have hreins : showGuideLayersReinsert
      { dragCrosshairLayer := 3, guideLayer := 4, backgroundGuideLayer := 0,
        rasterLayer := some 1 }
      (midState env [2]) = midState env [0, 1, 2, 3, 4] := by
    unfold showGuideLayersReinsert
    simp only [t0, e0, e0', t1, e1, e2, t2, e3, e4, t3, e5, e6,
               Bool.false_eq_true, if_false]
  unfold showGuideLayers
  rw [hreins]
  rfl

/-- `find?` only depends on the predicate's values on the list. -/
theorem find?_congr_mem {α : Type} {p q : α → Bool} :
    ∀ l : List α, (∀ a ∈ l, p a = q a) → l.find? p = l.find? q
  | [], _ => rfl
  | x :: xs, h => by
    simp only [List.find?]
    rw [h x (List.mem_cons_self x xs)]
    cases hq : q x with
    | true => rfl
    | false => exact find?_congr_mem xs fun a ha => h a (List.mem_cons_of_mem x ha)

/-- A hit in the first list survives appending. -/
theorem find?_append_some {α : Type} {p : α → Bool} {l₁ : List α} (l₂ : List α)
    {a : α} (h : l₁.find? p = some a) : (l₁ ++ l₂).find? p = some a := by
  rw [List.find?_append, h]
  rfl

/-- Appending a layer with a different id does not change a pool lookup. -/
theorem findPool_append_ne (pool : List Layer) (L : Layer) (a : Nat)
    (h : ¬ L.id = a) : findPool (pool ++ [L]) a = findPool pool a := by
  unfold findPool
  rw [List.find?_append]
  cases hf : pool.find? (fun l => l.id == a) with
  | some l => rfl
  | none =>
    have hL : (L.id == a) = false := by simp [h]
    simp [List.find?, hL]

/-- Appending a layer with a fresh id makes it findable by its id. -/
theorem findPool_append_self (pool : List Layer) (L : Layer)
    (h : ∀ l ∈ pool, ¬ l.id = L.id) :
    findPool (pool ++ [L]) L.id = some L := by
  unfold findPool
  rw [List.find?_append]
  have hnone : pool.find? (fun l => l.id == L.id) = none := by
    rw [List.find?_eq_none]
    intro x hx
    simp [h x hx]
  rw [hnone]
  simp [List.find?]

/-- A found layer's id is the looked-up id. -/
theorem findPool_some_id {pool : List Layer} {id : Nat} {l : Layer}
    (h : findPool pool id = some l) : l.id = id := by
  have := List.find?_some h
  simpa using this

/-- Pool lookup after mapping an id-preserving function. -/
theorem findPool_map_of_id {g : Layer → Layer} (hg : ∀ l, (g l).id = l.id)
    (pool : List Layer) (id : Nat) :
    findPool (pool.map g) id = (findPool pool id).map g := by
  unfold findPool
  rw [List.find?_map]
  have hpq : pool.find? ((fun l => l.id == id) ∘ g) =
      pool.find? (fun l => l.id == id) :=
    find?_congr_mem pool fun a _ => by simp [Function.comp, hg]
  rw [hpq]

/-- Pool lookup after `updatePool` (rewriting through an id-preserving
update). -/
theorem findPool_updatePool (tid : Nat) (g : Layer → Layer)
    (hg : ∀ l, (g l).id = l.id) (s : PaperState) (id : Nat) :
    findPool (updatePool tid g s).pool id =
      (findPool s.pool id).map (fun l => if l.id = tid then g l else l) := by
  show findPool (s.pool.map _) id = _
  exact findPool_map_of_id
    (fun l => by by_cases h : l.id = tid <;> simp [h, hg]) s.pool id

/-- An `updatePool` that preserves ids and data does not change role-tag
lookups. -/
theorem layerHasTag_updatePool (tid : Nat) (g : Layer → Layer)
    (hg : ∀ l, (g l).id = l.id) (hd : ∀ l, (g l).data = l.data)
    (s : PaperState) (tag : RoleTag) (id : Nat) :
    layerHasTag (updatePool tid g s) tag id = layerHasTag s tag id := by
  unfold layerHasTag
  rw [show (updatePool tid g s).pool = (updatePool tid g s).pool from rfl,
      findPool_updatePool tid g hg s id]
  cases findPool s.pool id with
  | none => rfl
  | some l => by_cases h : l.id = tid <;> simp [h, hd]

/-- An `updatePool` that preserves ids and data does not change `_getLayer`. -/
theorem _getLayer_updatePool (tid : Nat) (g : Layer → Layer)
    (hg : ∀ l, (g l).id = l.id) (hd : ∀ l, (g l).data = l.data)
    (s : PaperState) (tag : RoleTag) :
    _getLayer (updatePool tid g s) tag = _getLayer s tag := by
  show s.stack.find? (layerHasTag (updatePool tid g s) tag) =
    s.stack.find? (layerHasTag s tag)
  exact find?_congr_mem s.stack
    fun a _ => layerHasTag_updatePool tid g hg hd s tag a

/-- Replacing the children of a stocked layer stores exactly those
children. -/
theorem childrenOf_setChildren_self (id : Nat) (items : List Item)
    (s : PaperState) (h : (findPool s.pool id).isSome = true) :
    childrenOf (setChildrenOf id items s) id = items := by
  unfold childrenOf setChildrenOf
  rw [findPool_updatePool id (fun l => { l with children := items })
      (fun l => rfl) s id]
  obtain ⟨l, hl⟩ := Option.isSome_iff_exists.mp h
  rw [hl]
  simp [findPool_some_id hl]

/-- A successful `_getLayer` means the found id carries the tag. -/
theorem _getLayer_some {s : PaperState} {tag : RoleTag} {id : Nat}
    (h : _getLayer s tag = some id) : layerHasTag s tag id = true :=
  List.find?_some h

/-- A carried tag means the pool lookup succeeds. -/
theorem layerHasTag_isSome {s : PaperState} {tag : RoleTag} {id : Nat}
    (h : layerHasTag s tag id = true) : (findPool s.pool id).isSome = true := by
  unfold layerHasTag at h
  cases hf : findPool s.pool id with
  | none => rw [hf] at h; exact absurd h (by simp)
  | some l => rfl

/-! ### Claim theorems -/

/-- C1: after `setupLayers()` on an empty project, exactly one layer carries
each of the five role tags, the stack order back to front is
background-guide (id 0), raster (1), painting (2), drag-crosshair (3),
guide (4), and the active layer is the painting layer. -/
theorem setupLayers_canonical (env : PaintEnv) :
    setupLayers env emptyProject = some (canonicalState env) ∧
    (canonicalState env).stack = [0, 1, 2, 3, 4] ∧
    layerHasTag (canonicalState env) .isBackgroundGuideLayer 0 = true ∧
    layerHasTag (canonicalState env) .isRasterLayer 1 = true ∧
    layerHasTag (canonicalState env) .isPaintingLayer 2 = true ∧
    layerHasTag (canonicalState env) .isDragCrosshairLayer 3 = true ∧
    layerHasTag (canonicalState env) .isGuideLayer 4 = true ∧
    countTag (canonicalState env) .isBackgroundGuideLayer = 1 ∧
    countTag (canonicalState env) .isRasterLayer = 1 ∧
    countTag (canonicalState env) .isPaintingLayer = 1 ∧
    countTag (canonicalState env) .isDragCrosshairLayer = 1 ∧
    countTag (canonicalState env) .isGuideLayer = 1 ∧
    (canonicalState env).activeId = some 2 ∧
    (canonicalState env).activeId = _getPaintingLayer (canonicalState env) := by
  simp only [canonicalState_eq]
  exact ⟨setupLayers_eq env, rfl, rfl, rfl, rfl, rfl, rfl, rfl, rfl, rfl,
         rfl, rfl, rfl, rfl⟩

/-- C2: for both values of `includeRaster`,
`showGuideLayers(hideGuideLayers(includeRaster))` on the canonical
post-setup state restores exactly the canonical state: stack order
background-guide, raster, painting, drag-crosshair, guide, painting layer
active, layer count unchanged. -/
theorem hide_show_roundTrip (env : PaintEnv) (includeRaster : Bool) :
    ∃ s1 snap,
      hideGuideLayers includeRaster (canonicalState env) = some (s1, snap) ∧
      showGuideLayers snap s1 = some (canonicalState env) ∧
      (canonicalState env).stack = [0, 1, 2, 3, 4] ∧
      (canonicalState env).activeId = _getPaintingLayer (canonicalState env) ∧
      (canonicalState env).stack.length = 5 := by
  simp only [canonicalState_eq]
  cases includeRaster with
  | false =>
    exact ⟨midState env [1, 2],
           { dragCrosshairLayer := 3, guideLayer := 4,
             backgroundGuideLayer := 0, rasterLayer := none },
           rfl, showGuideLayers_midFalse env, rfl, rfl, rfl⟩
  | true =>
    exact ⟨midState env [2],
           { dragCrosshairLayer := 3, guideLayer := 4,
             backgroundGuideLayer := 0, rasterLayer := some 1 },
           rfl, showGuideLayers_midTrue env, rfl, rfl, rfl⟩

/-- C3: on the canonical state, `hideGuideLayers` detaches drag-crosshair,
guide, background-guide (and raster exactly when `includeRaster`) without
destroying them (the pool is untouched), the snapshot references exactly the
detached ids (raster reference only when `includeRaster`), and after
`hideGuideLayers(false)` the stack holds exactly raster and painting with
painting active. -/
theorem hideGuideLayers_detaches (env : PaintEnv) :
    ∃ s1 snap s2 snap2,
      hideGuideLayers false (canonicalState env) = some (s1, snap) ∧
      snap = { dragCrosshairLayer := 3, guideLayer := 4,
               backgroundGuideLayer := 0, rasterLayer := none } ∧
      s1.stack = [1, 2] ∧
      s1.activeId = some 2 ∧
      layerHasTag s1 .isRasterLayer 1 = true ∧
      layerHasTag s1 .isPaintingLayer 2 = true ∧
      s1.pool = (canonicalState env).pool ∧
      hideGuideLayers true (canonicalState env) = some (s2, snap2) ∧
      snap2 = { dragCrosshairLayer := 3, guideLayer := 4,
                backgroundGuideLayer := 0, rasterLayer := some 1 } ∧
      s2.stack = [2] ∧
      s2.activeId = some 2 ∧
      s2.pool = (canonicalState env).pool := by
  simp only [canonicalState_eq]
  exact ⟨midState env [1, 2],
         { dragCrosshairLayer := 3, guideLayer := 4,
           backgroundGuideLayer := 0, rasterLayer := none },
         midState env [2],
         { dragCrosshairLayer := 3, guideLayer := 4,
           backgroundGuideLayer := 0, rasterLayer := some 1 },
         rfl, rfl, rfl, rfl, rfl, rfl, rfl, rfl, rfl, rfl, rfl, rfl⟩

/-- C4 counterexample: for `width = 8, height = 8` the top pass generates 16
points but the return pass generates 14, not the claimed 16. -/
theorem checkerboard_returnPass_cex :
    (bgTopPassPoints 8 8 0 0).length = 16 ∧
    (bgReturnPassPoints 8 8 (8 - 1)).length = 14 ∧
    ¬ (bgReturnPassPoints 8 8 (8 - 1)).length = 16 ∧
    (_makeBackgroundPaper 8 8 "#E5E5E5").pathPoints.length = 30 := by
  decide

/-- C4 amended: the checkerboard built with `width = 8, height = 8`, scaled
by 8 on each axis, covers a 64 by 64 square with alternating 8 by 8 cells
(cell `(i, j)` is inside the even-odd filled path exactly when `i + j` is
even, over a white background rectangle scaled to 64 by 64), the boundary
polygon being generated from 16 points along the top pass and 14 along the
return pass. -/
theorem checkerboard_geometry_amended :
    (_makeBackgroundPaper 8 8 "#E5E5E5").pathPoints = makeBackgroundPaperPoints 8 8 ∧
    (bgTopPassPoints 8 8 0 0).length = 16 ∧
    (bgReturnPassPoints 8 8 (8 - 1)).length = 14 ∧
    (_makeBackgroundPaper 8 8 "#E5E5E5").pathFillRule = "evenodd" ∧
    (_makeBackgroundPaper 8 8 "#E5E5E5").pathFillColor = "#E5E5E5" ∧
    (_makeBackgroundPaper 8 8 "#E5E5E5").rectFillColor = "#fff" ∧
    (_makeBackgroundPaper 8 8 "#E5E5E5").rectFrom = (0, 0) ∧
    (_makeBackgroundPaper 8 8 "#E5E5E5").rectTo = (8, 8) ∧
    (8 * (_makeBackgroundPaper 8 8 "#E5E5E5").rectTo.1 = 64 ∧
     8 * (_makeBackgroundPaper 8 8 "#E5E5E5").rectTo.2 = 64) ∧
    scaledCheckerboardPoints.all
      (fun p => 0 ≤ p.1 && p.1 ≤ 64 && 0 ≤ p.2 && p.2 ≤ 64) = true ∧
    ((List.range 8).all fun i => (List.range 8).all fun j =>
      evenOddContains scaledCheckerboardPoints
          (8 * (i : Int) + 4, 8 * (j : Int) + 4) = ((i + j) % 2 == 0)) = true := by
  decide

/-- C5: the crosshair builder scales the group so that its bounding width
after scaling is `CROSSHAIR_SIZE / zoom` for every zoom factor above 0; at
zoom 2 that is `CROSSHAIR_SIZE / 2` and at zoom 1 it is `CROSSHAIR_SIZE`. -/
theorem crosshair_constant_screen_size (z : Rat) (hz : 0 < z) :
    crosshairScaledBoundsWidth z = CROSSHAIR_SIZE / z ∧
    crosshairScaledBoundsWidth 2 = CROSSHAIR_SIZE / 2 ∧
    crosshairScaledBoundsWidth 1 = CROSSHAIR_SIZE := by
  have hgen : ∀ w : Rat, w ≠ 0 →
      crosshairScaledBoundsWidth w = CROSSHAIR_SIZE / w := by
    intro w hw
    unfold crosshairScaledBoundsWidth crosshairScaleFactor CROSSHAIR_SIZE
    rw [crosshairBoundsWidth_eq]
    field_simp
    ring
  refine ⟨hgen z hz.ne', hgen 2 (by norm_num), ?_⟩
  rw [hgen 1 (by norm_num)]
  norm_num

/-- C5 witness: the general statement applied at zoom 2. -/
theorem crosshair_constant_screen_size_witness :
    (0 : Rat) < 2 ∧ crosshairScaledBoundsWidth 2 = CROSSHAIR_SIZE / 2 :=
  ⟨by norm_num, (crosshair_constant_screen_size 2 (by norm_num)).1⟩

/-- C10: `createCanvas` disables image smoothing, replaces a falsy (`none`
or zero) width or height by the art-board dimension and keeps a nonzero
requested dimension, so with a positive art board no returned canvas has a
zero dimension. -/
theorem createCanvas_spec (env : PaintEnv) (width height : Option Nat)
    (hw : 0 < env.artBoardW) (hh : 0 < env.artBoardH) :
    (createCanvas env width height).imageSmoothingEnabled = false ∧
    (createCanvas env width height).width ≠ 0 ∧
    (createCanvas env width height).height ≠ 0 ∧
    ((width = none ∨ width = some 0) →
      (createCanvas env width height).width = env.artBoardW) ∧
    ((height = none ∨ height = some 0) →
      (createCanvas env width height).height = env.artBoardH) ∧
    (∀ n, n ≠ 0 → width = some n → (createCanvas env width height).width = n) ∧
    (∀ n, n ≠ 0 → height = some n → (createCanvas env width height).height = n) := by
  refine ⟨rfl, canvasDim_ne_zero _ _ hw, canvasDim_ne_zero _ _ hh,
          fun h => canvasDim_falsy _ _ h, fun h => canvasDim_falsy _ _ h,
          ?_, ?_⟩
  · intro n hn hwn
    subst hwn
    exact canvasDim_truthy _ _ hn
  · intro n hn hhn
    subst hhn
    exact canvasDim_truthy _ _ hn

/-- C10 witness: the theorem applied on the standard art board with a falsy
width, a zero height and a nonzero explicit width. -/
theorem createCanvas_spec_witness :
    (createCanvas envStd none (some 0)).imageSmoothingEnabled = false ∧
    (createCanvas envStd none (some 0)).width = 480 ∧
    (createCanvas envStd none (some 0)).height = 360 ∧
    (createCanvas envStd (some 13) (some 7)).width = 13 := by
  have h := createCanvas_spec envStd none (some 0) (by decide) (by decide)
  have h2 := createCanvas_spec envStd (some 13) (some 7) (by decide) (by decide)
  exact ⟨h.1, h.2.2.2.1 (Or.inl rfl), h.2.2.2.2.1 (Or.inr rfl),
         h2.2.2.2.2.2.1 13 (by decide) rfl⟩

/-- C6: in a well-formed state with a painting layer, `getGuideLayer` with
no guide layer present creates one fresh layer, tags it `isGuideLayer`,
returns it, appends it to the stack and leaves the painting layer active;
with a guide layer present it returns that layer and changes nothing. -/
theorem getGuideLayer_spec (s : PaperState) (pid : Nat)
    (hwf : stateWF s)
    (hpaint : _getPaintingLayer s = some pid) :
    (∀ gid, _getLayer s .isGuideLayer = some gid →
      getGuideLayer s = some (s, gid)) ∧
    (_getLayer s .isGuideLayer = none →
      ∃ s', getGuideLayer s = some (s', s.nextId) ∧
        s'.pool = s.pool ++ [taggedGuideLayer s.nextId] ∧
        s'.stack = s.stack ++ [s.nextId] ∧
        s'.activeId = some pid ∧
        s'.activeId = _getPaintingLayer s' ∧
        s'.nextId = s.nextId + 1 ∧
        s'.logs = s.logs ∧
        layerHasTag s' .isGuideLayer s.nextId = true ∧
        s.nextId ∉ s.stack ∧
        s.nextId ∉ s.pool.map Layer.id) := by
  obtain ⟨hpool, hstack⟩ := hwf
  constructor
  · intro gid hgid
    unfold getGuideLayer
    rw [hgid]
  · intro hnone
    have hpoolmap :
        (s.pool ++ [({ id := s.nextId } : Layer)]).map
          (fun l => if l.id = s.nextId then
            { l with data := { l.data with isGuideLayer := true } } else l) =
        s.pool ++ [taggedGuideLayer s.nextId] := by
      rw [List.map_append]
      congr 1
      · calc s.pool.map _ = s.pool.map id :=
              List.map_congr_left fun a ha => by
                rw [if_neg (Nat.ne_of_lt (hpool a ha))]
                rfl
          _ = s.pool := List.map_id s.pool
      · simp [taggedGuideLayer]
    have hmk : _makeGuideLayer s =
        (⟨s.pool ++ [taggedGuideLayer s.nextId], s.stack ++ [s.nextId],
          some s.nextId, s.nextId + 1, s.logs⟩, s.nextId) := by
      show ((⟨(s.pool ++ [({ id := s.nextId } : Layer)]).map
          (fun l => if l.id = s.nextId then
            { l with data := { l.data with isGuideLayer := true } } else l),
          s.stack ++ [s.nextId], some s.nextId, s.nextId + 1, s.logs⟩ :
            PaperState), s.nextId) = _
      rw [hpoolmap]
    have hcong : ∀ a ∈ s.stack,
        layerHasTag ⟨s.pool ++ [taggedGuideLayer s.nextId],
          s.stack ++ [s.nextId], some s.nextId, s.nextId + 1, s.logs⟩
          .isPaintingLayer a =
        layerHasTag s .isPaintingLayer a := by
      intro a ha
      unfold layerHasTag
      rw [findPool_append_ne s.pool (taggedGuideLayer s.nextId) a
          (Nat.ne_of_gt (hstack a ha))]
    have hpaint2 : _getPaintingLayer (_makeGuideLayer s).1 = some pid := by
      rw [hmk]
      show (s.stack ++ [s.nextId]).find? _ = some pid
      refine find?_append_some _ ?_
      rw [find?_congr_mem s.stack hcong]
      exact hpaint
    have hGL : getGuideLayer s =
        some (activate pid (_makeGuideLayer s).1, (_makeGuideLayer s).2) := by
      unfold getGuideLayer
      rw [hnone, hpaint2]
    have hfp : findPool (s.pool ++ [taggedGuideLayer s.nextId]) s.nextId =
        some (taggedGuideLayer s.nextId) :=
      findPool_append_self s.pool (taggedGuideLayer s.nextId)
        (fun l hl => Nat.ne_of_lt (hpool l hl))
    refine ⟨activate pid (_makeGuideLayer s).1,
            ?_, ?_, ?_, ?_, ?_, ?_, ?_, ?_, ?_, ?_⟩
    · rw [hGL, hmk]
    · rw [hmk]
      rfl
    · rw [hmk]
      rfl
    · rfl
    · show some pid = _
      unfold activate _getPaintingLayer _getLayer
      rw [hmk]
      show some pid = (s.stack ++ [s.nextId]).find? _
      refine (find?_append_some _ ?_).symm
      rw [find?_congr_mem s.stack (fun a ha => ?_)]
      · exact hpaint
      · unfold layerHasTag
        rw [findPool_append_ne s.pool (taggedGuideLayer s.nextId) a
            (Nat.ne_of_gt (hstack a ha))]
    · rw [hmk]
      rfl
    · rw [hmk]
      rfl
    · rw [hmk]
      show (match findPool (s.pool ++ [taggedGuideLayer s.nextId]) s.nextId with
            | some l => l.data.get RoleTag.isGuideLayer
            | none => false) = true
      rw [hfp]
      rfl
    · exact fun hmem => absurd (hstack _ hmem) (Nat.lt_irrefl _)
    · intro hmem
      obtain ⟨l, hl, hEq⟩ := List.mem_map.mp hmem
      exact absurd (hEq ▸ hpool l hl) (Nat.lt_irrefl _)

/-- C6 witness: the theorem applied to a project holding only a painting
layer, taking the lazy-creation branch. -/
theorem getGuideLayer_spec_witness :
    getGuideLayer paintingOnlyState =
      some ({ pool := paintingOnlyState.pool ++ [taggedGuideLayer 1],
              stack := [0, 1], activeId := some 0, nextId := 2,
              logs := [] }, 1) ∧
    layerHasTag { pool := paintingOnlyState.pool ++ [taggedGuideLayer 1],
                  stack := ([0, 1] : List Nat), activeId := some 0,
                  nextId := 2, logs := [] } .isGuideLayer 1 = true := by
  have h := (getGuideLayer_spec paintingOnlyState 0 (by decide) rfl).2 rfl
  obtain ⟨s', hGL, hpool, hstack, hact, _, hnext, hlogs, htag, _, _⟩ := h
  have hs' : s' = { pool := paintingOnlyState.pool ++ [taggedGuideLayer 1],
                    stack := [0, 1], activeId := some 0, nextId := 2,
                    logs := [] } := by
    obtain ⟨p, st, a, n, lg⟩ := s'
    simp only [PaperState.mk.injEq]
    exact ⟨hpool, hstack, hact, hnext, hlogs⟩
  exact ⟨hs' ▸ hGL, hs' ▸ htag⟩

/-- C7 counterexample: in a stack whose guide layer (id 0) sits attached at
index 0, `showGuideLayers` does not leave its position unchanged: the falsy
`!layer.index` test misreads index 0 as detached and the layer is re-added
and brought to the front (index 4). -/
theorem showGuideLayers_index0_cex :
    layerIndex guideAtBottomState 0 = some 0 ∧
    (showGuideLayers guideAtBottomSnapshot guideAtBottomState).map
        (fun r => layerIndex r 0) = some (some 4) ∧
    (showGuideLayers guideAtBottomSnapshot guideAtBottomState).map
        PaperState.stack = some [1, 2, 3, 4, 0] ∧
    ¬ (showGuideLayers guideAtBottomSnapshot guideAtBottomState).map
        (fun r => layerIndex r 0) = some (some 0) := by
  refine ⟨rfl, rfl, rfl, ?_⟩
  intro h
  rw [show (showGuideLayers guideAtBottomSnapshot guideAtBottomState).map
      (fun r => layerIndex r 0) = some (some 4) from rfl] at h
  exact absurd (Option.some.inj h) (by decide)

/-- C7 amended: for every snapshot whose referenced layers are all attached
at nonzero stack indices (the `!layer.index` test reads a nonzero index as
truthy), `showGuideLayers` reinserts nothing: the stack, every layer's
index, the active layer and the pool are unchanged.  (A layer attached at
index 0 instead fails the test and is re-added, as the counterexample
shows.) -/
theorem showGuideLayers_attached_skip (snap : Snapshot) (s r : PaperState)
    (hbg : truthyIndex s snap.backgroundGuideLayer = true)
    (hdc : truthyIndex s snap.dragCrosshairLayer = true)
    (hg : truthyIndex s snap.guideLayer = true)
    (hr : ∀ rid, snap.rasterLayer = some rid → truthyIndex s rid = true)
    (hshow : showGuideLayers snap s = some r) :
    r.stack = s.stack ∧ r.activeId = s.activeId ∧ r.pool = s.pool ∧
    (∀ id, layerIndex r id = layerIndex s id) := by
  have hre : showGuideLayersReinsert snap s = s := by
    unfold showGuideLayersReinsert
    cases hraster : snap.rasterLayer with
    | none => simp [hraster, hbg, hdc, hg]
    | some rid => simp [hraster, hr rid hraster, hbg, hdc, hg]
  unfold showGuideLayers at hshow
  rw [hre] at hshow
  by_cases hA : activeIsPainting s = true
  · rw [if_pos hA] at hshow
    have h := Option.some.inj hshow
    subst h
    exact ⟨rfl, rfl, rfl, fun id => rfl⟩
  · rw [if_neg hA] at hshow
    cases hact : s.activeId with
    | none =>
      rw [hact] at hshow
      exact absurd hshow (by simp)
    | some a =>
      rw [hact] at hshow
      have h := Option.some.inj hshow
      subst h
      exact ⟨rfl, hact, rfl, fun id => rfl⟩

/-- C7 witness: the amended theorem applied to a snapshot of layers all
attached at indices 1 to 4. -/
theorem showGuideLayers_attached_skip_witness :
    ((showGuideLayers attachedSnapshot attachedState).getD emptyProject).stack =
      attachedState.stack ∧
    ((showGuideLayers attachedSnapshot attachedState).getD
        emptyProject).activeId = attachedState.activeId := by
  have h := showGuideLayers_attached_skip attachedSnapshot attachedState
      ((showGuideLayers attachedSnapshot attachedState).getD emptyProject)
      (by decide) (by decide) (by decide)
      (fun rid hrid =>
        Option.noConfusion (show (none : Option Nat) = some rid from hrid)) rfl
  exact ⟨h.1, h.2.1⟩

/-- C8: whenever `showGuideLayers` returns, the returned state keeps the
reinsertion phase's stack, active layer and pool; when the active layer is
the painting layer nothing is logged, and otherwise exactly the two error
messages are appended to the log while the active layer is still not
re-activated. -/
theorem showGuideLayers_active_check (snap : Snapshot) (s r : PaperState)
    (hshow : showGuideLayers snap s = some r) :
    r.stack = (showGuideLayersReinsert snap s).stack ∧
    r.activeId = (showGuideLayersReinsert snap s).activeId ∧
    r.pool = (showGuideLayersReinsert snap s).pool ∧
    (activeIsPainting (showGuideLayersReinsert snap s) = true →
      r.logs = (showGuideLayersReinsert snap s).logs) ∧
    (activeIsPainting (showGuideLayersReinsert snap s) = false →
      r.logs ≠ (showGuideLayersReinsert snap s).logs ∧
      ∃ a, (showGuideLayersReinsert snap s).activeId = some a ∧
        r.logs = (showGuideLayersReinsert snap s).logs ++
          [LogMsg.wrongActiveLayer,
           LogMsg.activeLayerData
             (activeLayerDataOf (showGuideLayersReinsert snap s) a)]) := by
  unfold showGuideLayers at hshow
  by_cases hA : activeIsPainting (showGuideLayersReinsert snap s) = true
  · rw [if_pos hA] at hshow
    have h := Option.some.inj hshow
    subst h
    refine ⟨rfl, rfl, rfl, fun _ => rfl, fun hF => ?_⟩
    exact absurd (hA.symm.trans hF) (by decide)
  · rw [if_neg hA] at hshow
    have hAf : activeIsPainting (showGuideLayersReinsert snap s) = false := by
      cases hb : activeIsPainting (showGuideLayersReinsert snap s)
      · rfl
      · exact absurd hb hA
    cases hact : (showGuideLayersReinsert snap s).activeId with
    | none =>
      rw [hact] at hshow
      exact absurd hshow (by simp)
    | some a =>
      rw [hact] at hshow
      have h := Option.some.inj hshow
      subst h
      refine ⟨rfl, hact, rfl, fun hT => ?_, fun _ => ⟨?_, a, rfl, rfl⟩⟩
      · exact absurd (hAf.symm.trans hT) (by decide)
      · intro hEq
        have hlen := congrArg List.length hEq
        simp at hlen

/-- C8 witness: the theorem applied to a state whose active layer is a
padding layer, not the painting layer, so the two errors are logged. -/
theorem showGuideLayers_active_check_witness :
    activeIsPainting
      (showGuideLayersReinsert wrongActiveSnapshot wrongActiveState) = false ∧
    ((showGuideLayers wrongActiveSnapshot wrongActiveState).getD
        emptyProject).activeId =
      (showGuideLayersReinsert wrongActiveSnapshot wrongActiveState).activeId ∧
    ((showGuideLayers wrongActiveSnapshot wrongActiveState).getD
        emptyProject).logs ≠
      (showGuideLayersReinsert wrongActiveSnapshot wrongActiveState).logs := by
  have h := showGuideLayers_active_check wrongActiveSnapshot wrongActiveState
      ((showGuideLayers wrongActiveSnapshot wrongActiveState).getD emptyProject)
      rfl
  exact ⟨rfl, h.2.1, (h.2.2.2.2 rfl).1⟩

/-- C9 counterexample: on a state whose raster layer holds two children,
`getRaster` returns the first child and leaves both in place, so the raster
layer does not end up with exactly one child. -/
theorem getRaster_two_children_cex :
    getRaster envStd twoChildRasterState =
      some (twoChildRasterState, some (blankRaster envStd)) ∧
    (childrenOf twoChildRasterState 0).length = 2 ∧
    ¬ (childrenOf twoChildRasterState 0).length = 1 :=
  ⟨rfl, rfl, by decide⟩

/-- C9 amended: when the raster layer exists and holds at most one child,
`getRaster` returns a state whose raster layer has exactly one child, that
child being the returned value; when the layer started empty the child is
the fresh blank art-board-sized raster installed by `clearRaster`, and when
it already had its single child the state is unchanged. -/
theorem getRaster_spec (env : PaintEnv) (s : PaperState) (rid : Nat)
    (hfind : _getLayer s .isRasterLayer = some rid)
    (hle : (childrenOf s rid).length ≤ 1) :
    ∃ s' c, getRaster env s = some (s', some c) ∧
      childrenOf s' rid = [c] ∧
      (childrenOf s rid = [] →
        s' = setChildrenOf rid [blankRaster env] s ∧ c = blankRaster env) ∧
      (∀ c', childrenOf s rid = [c'] → s' = s ∧ c = c') := by
  have hSome := layerHasTag_isSome (_getLayer_some hfind)
  cases hch : childrenOf s rid with
  | nil =>
    have hch2 : childrenOf (setChildrenOf rid [blankRaster env] s) rid =
        [blankRaster env] := childrenOf_setChildren_self rid _ s hSome
    have hcr : clearRaster env s =
        some (setChildrenOf rid [blankRaster env] s) := by
      unfold clearRaster
      rw [hfind]
    have hfind2 : _getLayer (setChildrenOf rid [blankRaster env] s)
        .isRasterLayer = some rid := by
      unfold setChildrenOf
      rw [_getLayer_updatePool rid
          (fun l => { l with children := [blankRaster env] })
          (fun l => rfl) (fun l => rfl) s .isRasterLayer]
      exact hfind
    have hlen : (childrenOf s rid).length = 0 := by rw [hch]; rfl
    refine ⟨setChildrenOf rid [blankRaster env] s, blankRaster env, ?_, hch2,
            fun _ => ⟨rfl, rfl⟩, ?_⟩
    · unfold getRaster
      rw [hfind]
      show (match (if (childrenOf s rid).length = 0 then clearRaster env s
              else some s) with
            | none => none
            | some s1 =>
              match _getLayer s1 .isRasterLayer with
              | none => none
              | some id2 => some (s1, (childrenOf s1 id2).head?)) =
        some (setChildrenOf rid [blankRaster env] s, some (blankRaster env))
      rw [if_pos hlen, hcr]
      show (match _getLayer (setChildrenOf rid [blankRaster env] s)
              .isRasterLayer with
            | none => none
            | some id2 => some (setChildrenOf rid [blankRaster env] s,
                (childrenOf (setChildrenOf rid [blankRaster env] s) id2).head?)) =
        some (setChildrenOf rid [blankRaster env] s, some (blankRaster env))
      rw [hfind2]
      show some (setChildrenOf rid [blankRaster env] s,
          (childrenOf (setChildrenOf rid [blankRaster env] s) rid).head?) =
        some (setChildrenOf rid [blankRaster env] s, some (blankRaster env))
      rw [hch2]
      rfl
    · intro c' hc'
      exact absurd hc' (by simp)
  | cons c rest =>
    have hrest : rest = [] := by
      cases rest with
      | nil => rfl
      | cons d ds =>
        rw [hch] at hle
        simp at hle
    subst hrest
    have hlen : ¬ (childrenOf s rid).length = 0 := by rw [hch]; simp
    refine ⟨s, c, ?_, hch, ?_, ?_⟩
    · unfold getRaster
      rw [hfind]
      show (match (if (childrenOf s rid).length = 0 then clearRaster env s
              else some s) with
            | none => none
            | some s1 =>
              match _getLayer s1 .isRasterLayer with
              | none => none
              | some id2 => some (s1, (childrenOf s1 id2).head?)) =
        some (s, some c)
      rw [if_neg hlen]
      show (match _getLayer s .isRasterLayer with
            | none => none
            | some id2 => some (s, (childrenOf s id2).head?)) = some (s, some c)
      rw [hfind]
      show some (s, (childrenOf s rid).head?) = some (s, some c)
      rw [hch]
      rfl
    · intro h0
      exact absurd h0 (by simp)
    · intro c' hc'
      injection hc' with h1 _
      exact ⟨rfl, h1⟩

/-- C9 witness: the amended theorem applied to an initially empty raster
layer, taking the lazy-reset branch. -/
theorem getRaster_spec_witness :
    getRaster envStd emptyRasterState =
      some (setChildrenOf 0 [blankRaster envStd] emptyRasterState,
            some (blankRaster envStd)) ∧
    childrenOf (setChildrenOf 0 [blankRaster envStd] emptyRasterState) 0 =
      [blankRaster envStd] := by
  obtain ⟨s', c, hget, hone, hzero, _⟩ :=
    getRaster_spec envStd emptyRasterState 0 rfl (by decide)
  obtain ⟨hs', hc⟩ := hzero rfl
  subst hs'
  subst hc
  exact ⟨hget, hone⟩

end ScratchPaint
